import Mathlib

/-!
Verification of the query-language construction and field-typing engine of the
`search` repository, as a shallow embedding in Lean 4.

The embedding follows the Python source files `search/fields.py`,
`search/ql.py`, `search/indexers.py` and `query.py`.  Python values that flow
through the field converters are modelled by the inductive `PyVal`; machine
floats are modelled by `Rat` (every numeric literal and bound appearing in the
code is far below 2^53, where IEEE doubles are exact on the operations the
code performs: comparison and negation); Python `None` is the `PyVal.vNone`
constructor; raised exceptions are modelled with `Except` over an error tag
type mirroring the exception classes the code raises.
-/

namespace GSearch

/-- Error taxonomy of the core, mirroring the exception classes raised by
`search/fields.py` and `search/ql.py` (`FieldError`, `ValueError`,
`TypeError`, `FieldLookupError`, `BadValueError`) and the `IndexError` of
`query.py` slicing. -/
inductive SearchErr where
  | fieldError
  | valueError
  | typeError
  | fieldLookupError
  | badValueError
  | indexError
  deriving DecidableEq, Repr

/-- `MAX_SEARCH_API_INT = 2147483647` (`search/fields.py`). -/
def MAX_SEARCH_API_INT : Int := 2147483647

/-- `MIN_SEARCH_API_INT = -MAX_SEARCH_API_INT` (`search/fields.py`). -/
def MIN_SEARCH_API_INT : Int := -MAX_SEARCH_API_INT

/-- `MAX_SEARCH_API_FLOAT = float(MAX_SEARCH_API_INT)`; exact as a rational. -/
def MAX_SEARCH_API_FLOAT : Rat := 2147483647

/-- `MIN_SEARCH_API_FLOAT = -MAX_SEARCH_API_FLOAT`. -/
def MIN_SEARCH_API_FLOAT : Rat := -2147483647

/-- A Python `datetime.date`: year, month, day. -/
structure PyDate where
  year : Nat
  month : Nat
  day : Nat
  deriving DecidableEq, Repr

/-- `datetime.date.max`, i.e. `date(9999, 12, 31)` — the `DateField`
"no value" sentinel (`DateField.none_value`). -/
def date_max : PyDate := ⟨9999, 12, 31⟩

/-- The Python values handled by the field converters.  A `datetime` is
modelled by the two observations the code makes of it: its date part
(`.date()`, used by `DateField`) and its Unix timestamp
(`calendar.timegm(value.utctimetuple())`, used by `DateTimeField`), plus its
timezone-awareness flag (`timezone.is_tz_aware`).  `vIndexed` models the
`IndexedValue` `unicode` subclass of `search/fields.py`. -/
inductive PyVal where
  | vNone
  | vInt (n : Int)
  | vFloat (q : Rat)
  | vBool (b : Bool)
  | vStr (s : String)
  | vIndexed (s : String)
  | vDate (d : PyDate)
  | vDateTime (dpart : PyDate) (ts : Int) (aware : Bool)
  deriving DecidableEq, Repr

/-- Python `==` between a field value and an `int` sentinel: numeric values
compare by value across `int`/`float`/`bool` (Python numeric equality);
values of non-numeric types are never equal to an `int`. -/
def pyEqInt (v : PyVal) (n : Int) : Bool :=
  match v with
  | .vInt m => m == n
  | .vBool b => (if b then (1 : Int) else 0) == n
  | .vFloat q => q == (n : Rat)
  | _ => false

/-- Python `==` between a field value and a `float` sentinel. -/
def pyEqRat (v : PyVal) (r : Rat) : Bool :=
  match v with
  | .vInt m => (m : Rat) == r
  | .vBool b => (if b then (1 : Rat) else 0) == r
  | .vFloat q => q == r
  | _ => false

/-- Shared constructor state of `Field.__init__` (`search/fields.py` lines
72-74): `default` (`NOT_SET` modelled as `none`; a Python default of `None`
would be `some .vNone`) and `null`. -/
structure FieldCfg where
  default : Option PyVal
  null : Bool
  deriving Repr

/-- `Field.to_search_value` (`search/fields.py` lines 86-98), the base-class
conversion shared (via `super()`) by every field type.  `noneValue` stands for
the virtual `self.none_value()` of the concrete field class.  If the value is
`None`: return `none_value()` when `null`, else the configured `default`,
else raise `FieldError`.  Any other value is returned unchanged. -/
def Field.to_search_value (cfg : FieldCfg) (noneValue : PyVal) (value : PyVal) :
    Except SearchErr PyVal :=
  if value = .vNone then
    if cfg.null then .ok noneValue
    else
      match cfg.default with
      | none => .error .fieldError
      | some d => .ok d
  else .ok value

/-- Claim C2: for every field, `to_search_value(None)` returns the field's
`none_value()` when the field is nullable; otherwise it returns the
configured default when one was configured; otherwise it raises `FieldError`;
and a `None` input raises in no other case (shown by the last conjunct:
every non-`None` value passes through the base conversion without error, so
the only `FieldError` raised on the base path is the non-nullable,
no-default, `None`-input case). -/
theorem C2_none_value_handling (cfg : FieldCfg) (noneValue : PyVal) :
    (cfg.null = true →
      Field.to_search_value cfg noneValue .vNone = .ok noneValue) ∧
    (cfg.null = false → ∀ d, cfg.default = some d →
      Field.to_search_value cfg noneValue .vNone = .ok d) ∧
    (cfg.null = false → cfg.default = none →
      Field.to_search_value cfg noneValue .vNone = .error .fieldError) ∧
    (∀ v, v ≠ .vNone → Field.to_search_value cfg noneValue v = .ok v) := by
  refine ⟨?_, ?_, ?_, ?_⟩
  · intro h
    simp [Field.to_search_value, h]
  · intro h d hd
    simp [Field.to_search_value, h, hd]
  · intro h hd
    simp [Field.to_search_value, h, hd]
  · intro v hv
    simp [Field.to_search_value, hv]

/-- Witness for C2 at concrete configurations: a nullable field maps `None`
to the sentinel, a non-nullable field with a default maps `None` to the
default, a non-nullable field without a default raises `FieldError`, and a
non-`None` value passes through. -/
theorem C2_none_value_handling_witness :
    Field.to_search_value ⟨none, true⟩ (.vInt MIN_SEARCH_API_INT) .vNone
      = .ok (.vInt MIN_SEARCH_API_INT) ∧
    Field.to_search_value ⟨some (.vInt 456), false⟩ (.vInt MIN_SEARCH_API_INT) .vNone
      = .ok (.vInt 456) ∧
    Field.to_search_value ⟨none, false⟩ (.vInt MIN_SEARCH_API_INT) .vNone
      = .error .fieldError ∧
    Field.to_search_value ⟨none, false⟩ (.vInt MIN_SEARCH_API_INT) (.vInt 7)
      = .ok (.vInt 7) := by
  refine ⟨?_, ?_, ?_, ?_⟩
  · exact (C2_none_value_handling ⟨none, true⟩ (.vInt MIN_SEARCH_API_INT)).1 rfl
  · exact (C2_none_value_handling ⟨some (.vInt 456), false⟩
      (.vInt MIN_SEARCH_API_INT)).2.1 rfl (.vInt 456) rfl
  · exact (C2_none_value_handling ⟨none, false⟩
      (.vInt MIN_SEARCH_API_INT)).2.2.1 rfl rfl
  · exact (C2_none_value_handling ⟨none, false⟩
      (.vInt MIN_SEARCH_API_INT)).2.2.2 (.vInt 7) (by decide)

/-! ## Numeric fields (`IntegerField`, `FloatField`, `BooleanField`) -/

/-- Python `int(value)` on the numeric values the claims exercise
(`int`/`bool`/`float`; `float` truncates toward zero).  `int()` of a
non-numeric value raises; string parsing (`int("987")`) is outside the
modelled domain — no claim exercises it. -/
def pyInt : PyVal → Except SearchErr Int
  | .vInt n => .ok n
  | .vBool b => .ok (if b then 1 else 0)
  | .vFloat q => .ok (q.num / (q.den : Int))
  | _ => .error .typeError

/-- Python `float(value)` under the same domain conventions as `pyInt`. -/
def pyFloat : PyVal → Except SearchErr Rat
  | .vFloat q => .ok q
  | .vInt n => .ok (n : Rat)
  | .vBool b => .ok (if b then 1 else 0)
  | _ => .error .typeError

/-- State of an `IntegerField` after `__init__` has resolved the bounds. -/
structure IntegerFieldCfg where
  base : FieldCfg
  minimum : Int
  maximum : Int
  deriving Repr

/-- `IntegerField.__init__` (`search/fields.py` lines 227-235):
`self.minimum = minimum or MIN_SEARCH_API_INT` — Python `or` treats both
`None` and `0` as falsy, so a bound supplied as `0` is replaced by the
platform default, exactly like an omitted bound.  Likewise for `maximum`. -/
def IntegerField.init (minimum maximum : Option Int) (base : FieldCfg) :
    IntegerFieldCfg :=
  { base := base
    minimum := match minimum with
      | none => MIN_SEARCH_API_INT
      | some m => if m = 0 then MIN_SEARCH_API_INT else m
    maximum := match maximum with
      | none => MAX_SEARCH_API_INT
      | some m => if m = 0 then MAX_SEARCH_API_INT else m }

/-- `IntegerField.to_search_value` (`search/fields.py` lines 240-252): base
conversion, then `None` or the sentinel short-circuits to the sentinel
(`none_value() == MIN_SEARCH_API_INT`), then `int(value)` and the range
check `value < self.minimum or value > self.maximum`. -/
def IntegerField.to_search_value (f : IntegerFieldCfg) (value : PyVal) :
    Except SearchErr Int :=
  match Field.to_search_value f.base (.vInt MIN_SEARCH_API_INT) value with
  | .error e => .error e
  | .ok v =>
    if v = .vNone ∨ pyEqInt v MIN_SEARCH_API_INT then .ok MIN_SEARCH_API_INT
    else
      match pyInt v with
      | .error e => .error e
      | .ok n =>
        if n < f.minimum ∨ n > f.maximum then .error .valueError else .ok n

/-- `IntegerField.to_python` (`search/fields.py` lines 254-257). -/
def IntegerField.to_python (value : Int) : PyVal :=
  if value = MIN_SEARCH_API_INT then .vNone else .vInt value

/-- State of a `FloatField` after `__init__` has resolved the bounds. -/
structure FloatFieldCfg where
  base : FieldCfg
  minimum : Rat
  maximum : Rat
  deriving Repr

/-- `FloatField.__init__` (`search/fields.py` lines 187-195); `0.0` is falsy
for Python `or` just as `0` is for the integer bounds. -/
def FloatField.init (minimum maximum : Option Rat) (base : FieldCfg) :
    FloatFieldCfg :=
  { base := base
    minimum := match minimum with
      | none => MIN_SEARCH_API_FLOAT
      | some m => if m = 0 then MIN_SEARCH_API_FLOAT else m
    maximum := match maximum with
      | none => MAX_SEARCH_API_FLOAT
      | some m => if m = 0 then MAX_SEARCH_API_FLOAT else m }

/-- `FloatField.to_search_value` (`search/fields.py` lines 200-212). -/
def FloatField.to_search_value (f : FloatFieldCfg) (value : PyVal) :
    Except SearchErr Rat :=
  match Field.to_search_value f.base (.vFloat MIN_SEARCH_API_FLOAT) value with
  | .error e => .error e
  | .ok v =>
    if v = .vNone ∨ pyEqRat v MIN_SEARCH_API_FLOAT then .ok MIN_SEARCH_API_FLOAT
    else
      match pyFloat v with
      | .error e => .error e
      | .ok q =>
        if q < f.minimum ∨ q > f.maximum then .error .valueError else .ok q

/-- `FloatField.to_python` (`search/fields.py` lines 214-217). -/
def FloatField.to_python (value : Rat) : PyVal :=
  if value = MIN_SEARCH_API_FLOAT then .vNone else .vFloat value

/-- `BooleanField.to_search_value` (`search/fields.py` lines 270-282): base
conversion, `None`/sentinel short-circuit, then `try: value = int(value)
except TypeError: pass` followed by `int(bool(value))`.  A date survives the
`TypeError` and, being truthy, yields `1`; `int()` of a non-numeric string
raises `ValueError` (numeric strings are outside the modelled domain). -/
def BooleanField.to_search_value (cfg : FieldCfg) (value : PyVal) :
    Except SearchErr Int :=
  match Field.to_search_value cfg (.vInt MIN_SEARCH_API_INT) value with
  | .error e => .error e
  | .ok v =>
    if v = .vNone ∨ pyEqInt v MIN_SEARCH_API_INT then .ok MIN_SEARCH_API_INT
    else
      match v with
      | .vInt n => .ok (if n ≠ 0 then 1 else 0)
      | .vBool b => .ok (if b then 1 else 0)
      | .vFloat q => .ok (if q.num / (q.den : Int) ≠ 0 then 1 else 0)
      | .vStr _ => .error .valueError
      | .vIndexed _ => .error .valueError
      | .vDate _ => .ok 1
      | .vDateTime _ _ _ => .ok 1
      | .vNone => .ok MIN_SEARCH_API_INT

/-- `BooleanField.to_python` (`search/fields.py` lines 284-287). -/
def BooleanField.to_python (value : Int) : PyVal :=
  if value = MIN_SEARCH_API_INT then .vNone else .vBool (value ≠ 0)

/-- `Except` success test ("does not raise"). -/
def exceptOk {ε α : Type} : Except ε α → Bool
  | .ok _ => true
  | .error _ => false

/-- Claim C10: for `IntegerField` and `FloatField`, constructing the field
with `minimum=0` or `maximum=0` behaves exactly as if the bound had not been
supplied (Python `or` truthiness in `__init__`), so a field declared with
`minimum=0` accepts every value down to `-(2^31 - 1)` without raising (the
minimum itself coming back as the `none_value` sentinel, still without an
exception). -/
theorem C10_zero_bound_is_default (base : FieldCfg) :
    IntegerField.init (some 0) none base = IntegerField.init none none base ∧
    IntegerField.init none (some 0) base = IntegerField.init none none base ∧
    FloatField.init (some 0) none base = FloatField.init none none base ∧
    FloatField.init none (some 0) base = FloatField.init none none base ∧
    (∀ v : Int, MIN_SEARCH_API_INT ≤ v → v ≤ MAX_SEARCH_API_INT →
      exceptOk (IntegerField.to_search_value
        (IntegerField.init (some 0) none base) (.vInt v)) = true) := by
  refine ⟨rfl, rfl, rfl, rfl, ?_⟩
  intro v hlo hhi
  by_cases hv : v = MIN_SEARCH_API_INT
  · simp [IntegerField.to_search_value, Field.to_search_value, pyEqInt, hv,
      exceptOk]
  · have hcond : ¬ (v < MIN_SEARCH_API_INT ∨ (2147483647 : Int) < v) := by
      push_neg
      exact ⟨hlo, by simpa [MAX_SEARCH_API_INT] using hhi⟩
    simp [IntegerField.to_search_value, Field.to_search_value, pyEqInt, hv,
      pyInt, IntegerField.init, MAX_SEARCH_API_INT, exceptOk, hcond]

/-- Witness for C10: the field `IntegerField(minimum=0)` accepts the extreme
value `-(2^31 - 1)` without raising. -/
theorem C10_zero_bound_is_default_witness :
    exceptOk (IntegerField.to_search_value
      (IntegerField.init (some 0) none ⟨none, true⟩)
      (.vInt MIN_SEARCH_API_INT)) = true :=
  (C10_zero_bound_is_default ⟨none, true⟩).2.2.2.2 MIN_SEARCH_API_INT
    (by decide) (by decide)

/-! ## Date and datetime fields (`DateField`, `DateTimeField`) -/

/-- Civil date from a count of days since 1970-01-01 (the classic
era-decomposition algorithm); models the date component computed by
`datetime.datetime.utcfromtimestamp`. -/
def civilFromDays (z0 : Int) : PyDate :=
  let z := z0 + 719468
  let era := (if 0 ≤ z then z else z - 146096) / 146097
  let doe := z - era * 146097
  let yoe := (doe - doe / 1460 + doe / 36524 - doe / 146096) / 365
  let y := yoe + era * 400
  let doy := doe - (365 * yoe + yoe / 4 - yoe / 100)
  let mp := (5 * doy + 2) / 153
  let d := doy - (153 * mp + 2) / 5 + 1
  let m := mp + (if mp < 10 then 3 else -9)
  let y := if m ≤ 2 then y + 1 else y
  ⟨y.toNat, m.toNat, d.toNat⟩

/-- Date part of `timezone.timestamp_to_datetime(value)`
(= `datetime.utcfromtimestamp(value)`), used by `DateTimeField.to_python`. -/
def timestampDate (ts : Int) : PyDate :=
  civilFromDays (Int.fdiv ts 86400)

/-- `DateTimeField.to_search_value` (`search/fields.py` lines 379-399): base
conversion, `None`/sentinel short-circuit, `is_tz_aware` check (an aware
value is only accepted when it equals the configured default, in which case
it is converted to naive UTC — its UTC timestamp, which our model already
stores, is unchanged), then `timezone.datetime_to_timestamp` and the range
check `MIN_SEARCH_API_INT < timestamp <= MAX_SEARCH_API_INT` (the minimum
integer is reserved for "no value").  `is_tz_aware` on a non-datetime value
crashes in Python (`AttributeError`); the model collapses that to the
type-error tag — no claim exercises it. -/
def DateTimeField.to_search_value (cfg : FieldCfg) (value : PyVal) :
    Except SearchErr Int :=
  match Field.to_search_value cfg (.vInt MIN_SEARCH_API_INT) value with
  | .error e => .error e
  | .ok v =>
    if v = .vNone ∨ pyEqInt v MIN_SEARCH_API_INT then .ok MIN_SEARCH_API_INT
    else
      match v with
      | .vDateTime dpart ts aware =>
        if aware ∧ cfg.default ≠ some (.vDateTime dpart ts aware) then
          .error .typeError
        else if MIN_SEARCH_API_INT < ts ∧ ts ≤ MAX_SEARCH_API_INT then .ok ts
        else .error .valueError
      | _ => .error .typeError

/-- `DateTimeField.to_python` (`search/fields.py` lines 401-405): the
sentinel becomes `None`, anything else becomes the naive datetime
`timezone.timestamp_to_datetime(value)`. -/
def DateTimeField.to_python (value : Int) : PyVal :=
  if value = MIN_SEARCH_API_INT then .vNone
  else .vDateTime (timestampDate value) value false

/-- `DateField.to_search_value` (`search/fields.py` lines 312-332): base
conversion, then `None` maps to `date.max`; a naive datetime or a date is
returned unchanged; an aware datetime raises `TypeError`; a string is parsed
with the two fixed formats — string inputs are outside the modelled domain
(the model raises the `ValueError` of the no-format-matched path; well-formed
date strings would parse in the source, but no claim exercises them); any
other type raises `TypeError`. -/
def DateField.to_search_value (cfg : FieldCfg) (value : PyVal) :
    Except SearchErr PyVal :=
  match Field.to_search_value cfg (.vDate date_max) value with
  | .error e => .error e
  | .ok v =>
    if v = .vNone then .ok (.vDate date_max)
    else
      match v with
      | .vDateTime dpart ts aware =>
        if aware then .error .typeError else .ok (.vDateTime dpart ts false)
      | .vDate d => .ok (.vDate d)
      | .vStr _ => .error .valueError
      | .vIndexed _ => .error .valueError
      | _ => .error .typeError

/-- `DateField.to_python` (`search/fields.py` lines 334-340): the sentinel
date (or a datetime whose date part is the sentinel) becomes `None`; dates
and datetimes are returned unchanged; the method falls off the end (Python
`None`) for every other type. -/
def DateField.to_python (value : PyVal) : PyVal :=
  if value = .vDate date_max then .vNone
  else
    match value with
    | .vDateTime dpart ts aware =>
      if dpart = date_max then .vNone else .vDateTime dpart ts aware
    | .vDate d => .vDate d
    | _ => .vNone

/-- Claim C3: for `IntegerField`, `FloatField` and `DateTimeField`,
`to_search_value` succeeds exactly at the field's minimum and maximum and
raises a range error one unit beyond either bound.  The integer/float bound
hypotheses state that the configured bounds are ordered and do not collide
with the reserved `none_value` sentinel (a field whose `minimum - 1` equals
the sentinel would return the sentinel instead of raising — the spec itself
forbids callers from using the sentinel as a real value).  For the float
field the failure direction is proved for every out-of-range non-sentinel
value, which subsumes "one unit beyond".  For `DateTimeField` the bounds are
fixed: the minimum representable datetime has timestamp
`MIN_SEARCH_API_INT + 1` (= `datetime(1901, 12, 13, 20, 45, 54)`, the
minimum documented in the class docstring) and the maximum has timestamp
`MAX_SEARCH_API_INT`; one second beyond either raises `ValueError`. -/
theorem C3_boundary_values (fi : IntegerFieldCfg) (ff : FloatFieldCfg)
    (cfgdt : FieldCfg) (dpart : PyDate)
    (hi1 : fi.minimum ≤ fi.maximum)
    (hi2 : fi.minimum - 1 ≠ MIN_SEARCH_API_INT)
    (hi3 : fi.maximum + 1 ≠ MIN_SEARCH_API_INT)
    (hf1 : ff.minimum ≤ ff.maximum) :
    exceptOk (IntegerField.to_search_value fi (.vInt fi.minimum)) = true ∧
    exceptOk (IntegerField.to_search_value fi (.vInt fi.maximum)) = true ∧
    IntegerField.to_search_value fi (.vInt (fi.minimum - 1))
      = .error .valueError ∧
    IntegerField.to_search_value fi (.vInt (fi.maximum + 1))
      = .error .valueError ∧
    exceptOk (FloatField.to_search_value ff (.vFloat ff.minimum)) = true ∧
    exceptOk (FloatField.to_search_value ff (.vFloat ff.maximum)) = true ∧
    (∀ q : Rat, q < ff.minimum → q ≠ MIN_SEARCH_API_FLOAT →
      FloatField.to_search_value ff (.vFloat q) = .error .valueError) ∧
    (∀ q : Rat, q > ff.maximum → q ≠ MIN_SEARCH_API_FLOAT →
      FloatField.to_search_value ff (.vFloat q) = .error .valueError) ∧
    exceptOk (DateTimeField.to_search_value cfgdt
      (.vDateTime dpart (MIN_SEARCH_API_INT + 1) false)) = true ∧
    exceptOk (DateTimeField.to_search_value cfgdt
      (.vDateTime dpart MAX_SEARCH_API_INT false)) = true ∧
    DateTimeField.to_search_value cfgdt
      (.vDateTime dpart MIN_SEARCH_API_INT false) = .error .valueError ∧
    DateTimeField.to_search_value cfgdt
      (.vDateTime dpart (MAX_SEARCH_API_INT + 1) false)
      = .error .valueError := by
  refine ⟨?_, ?_, ?_, ?_, ?_, ?_, ?_, ?_, ?_, ?_, ?_, ?_⟩
  · by_cases hm : fi.minimum = MIN_SEARCH_API_INT
    · simp [IntegerField.to_search_value, Field.to_search_value, pyEqInt, hm,
        exceptOk]
    · have hr : ¬ fi.maximum < fi.minimum := not_lt.mpr hi1
      simp [IntegerField.to_search_value, Field.to_search_value, pyEqInt, hm,
        pyInt, exceptOk, hr]
  · by_cases hm : fi.maximum = MIN_SEARCH_API_INT
    · simp [IntegerField.to_search_value, Field.to_search_value, pyEqInt, hm,
        exceptOk]
    · have hr : ¬ fi.maximum < fi.minimum := not_lt.mpr hi1
      simp [IntegerField.to_search_value, Field.to_search_value, pyEqInt, hm,
        pyInt, exceptOk, hr]
  · have hr : fi.minimum - 1 < fi.minimum ∨ fi.maximum < fi.minimum - 1 :=
      Or.inl (by omega)
    simp [IntegerField.to_search_value, Field.to_search_value, pyEqInt, hi2,
      pyInt, hr]
  · have hr : fi.maximum + 1 < fi.minimum ∨ fi.maximum < fi.maximum + 1 :=
      Or.inr (by omega)
    simp [IntegerField.to_search_value, Field.to_search_value, pyEqInt, hi3,
      pyInt, hr]
  · by_cases hm : ff.minimum = MIN_SEARCH_API_FLOAT
    · simp [FloatField.to_search_value, Field.to_search_value, pyEqRat, hm,
        exceptOk]
    · have hr : ¬ ff.maximum < ff.minimum := not_lt.mpr hf1
      simp [FloatField.to_search_value, Field.to_search_value, pyEqRat, hm,
        pyFloat, exceptOk, hr]
  · by_cases hm : ff.maximum = MIN_SEARCH_API_FLOAT
    · simp [FloatField.to_search_value, Field.to_search_value, pyEqRat, hm,
        exceptOk]
    · have hr : ¬ ff.maximum < ff.minimum := not_lt.mpr hf1
      simp [FloatField.to_search_value, Field.to_search_value, pyEqRat, hm,
        pyFloat, exceptOk, hr]
  · intro q hq hs
    have hr : q < ff.minimum ∨ ff.maximum < q := Or.inl hq
    simp [FloatField.to_search_value, Field.to_search_value, pyEqRat, hs,
      pyFloat, hr]
  · intro q hq hs
    have hr : q < ff.minimum ∨ ff.maximum < q := Or.inr hq
    simp [FloatField.to_search_value, Field.to_search_value, pyEqRat, hs,
      pyFloat, hr]
  · have hr : MIN_SEARCH_API_INT < MIN_SEARCH_API_INT + 1 ∧
        MIN_SEARCH_API_INT + 1 ≤ MAX_SEARCH_API_INT := by
      constructor
      · omega
      · norm_num [MIN_SEARCH_API_INT, MAX_SEARCH_API_INT]
    simp [DateTimeField.to_search_value, Field.to_search_value, pyEqInt,
      exceptOk, hr]
  · have hr : MIN_SEARCH_API_INT < MAX_SEARCH_API_INT ∧
        MAX_SEARCH_API_INT ≤ MAX_SEARCH_API_INT := by
      constructor
      · norm_num [MIN_SEARCH_API_INT, MAX_SEARCH_API_INT]
      · exact le_refl _
    simp [DateTimeField.to_search_value, Field.to_search_value, pyEqInt,
      exceptOk, hr]
  · have hr : ¬ (MIN_SEARCH_API_INT < MIN_SEARCH_API_INT ∧
        MIN_SEARCH_API_INT ≤ MAX_SEARCH_API_INT) := by
      simp
    simp [DateTimeField.to_search_value, Field.to_search_value, pyEqInt, hr]
  · have hr : ¬ (MIN_SEARCH_API_INT < MAX_SEARCH_API_INT + 1 ∧
        MAX_SEARCH_API_INT + 1 ≤ MAX_SEARCH_API_INT) := by
      omega
    simp [DateTimeField.to_search_value, Field.to_search_value, pyEqInt, hr]

/-- The `IntegerField(minimum=2, maximum=4)` of the repository's own
boundary test (`search/tests/test_fields.py`, `test_max_min_limits`). -/
def c3fi : IntegerFieldCfg := IntegerField.init (some 2) (some 4) ⟨none, true⟩

/-- A `FloatField(minimum=2.0, maximum=5.0)` for the C3 witness. -/
def c3ff : FloatFieldCfg := FloatField.init (some 2) (some 5) ⟨none, true⟩

/-- Witness for C3 at the concrete bounds 2..4 (integer), 2..5 (float) and
the fixed datetime range. -/
theorem C3_boundary_values_witness :
    exceptOk (IntegerField.to_search_value c3fi (.vInt 2)) = true ∧
    IntegerField.to_search_value c3fi (.vInt 1) = .error .valueError ∧
    IntegerField.to_search_value c3fi (.vInt 5) = .error .valueError ∧
    FloatField.to_search_value c3ff (.vFloat 1) = .error .valueError ∧
    FloatField.to_search_value c3ff (.vFloat 6) = .error .valueError ∧
    exceptOk (DateTimeField.to_search_value ⟨none, true⟩
      (.vDateTime ⟨1901, 12, 13⟩ (MIN_SEARCH_API_INT + 1) false)) = true ∧
    DateTimeField.to_search_value ⟨none, true⟩
      (.vDateTime ⟨1901, 12, 13⟩ MIN_SEARCH_API_INT false)
      = .error .valueError := by
  have h := C3_boundary_values c3fi c3ff ⟨none, true⟩ ⟨1901, 12, 13⟩
    (by decide) (by decide) (by decide) (by decide)
  exact ⟨h.1, h.2.2.1, h.2.2.2.1, h.2.2.2.2.2.2.1 1 (by decide) (by decide),
    h.2.2.2.2.2.2.2.1 6 (by decide) (by decide),
    h.2.2.2.2.2.2.2.2.1, h.2.2.2.2.2.2.2.2.2.2.1⟩

/-! ## Indexers (`search/indexers.py`) -/

/-- The character class kept by `PUNCTUATION_REGEX = [^\w -\'"+]`
(`search/indexers.py` line 10): word characters, the range space..apostrophe
(code points 0x20 to 0x27), the double quote and the plus sign.  `\w` is
modelled for alphanumerics and the underscore (the claims only exercise
ASCII input). -/
def keepChar (c : Char) : Bool :=
  c.isAlphanum || c = '_' || (32 ≤ c.toNat && c.toNat ≤ 39) || c = '"' || c = '+'

/-- `PUNCTUATION_REGEX.sub(u' ', value)`: replace every character outside
the kept class with a space. -/
def cleanSub (s : String) : String :=
  String.mk (s.data.map (fun c => if keepChar c then c else ' '))

/-- Python `str.split()` with no argument: split on whitespace runs,
dropping empty tokens. -/
def wordsRec : List Char → List Char → List String
  | [], cur => if cur.isEmpty then [] else [String.mk cur.reverse]
  | c :: rest, cur =>
    if c.isWhitespace then
      if cur.isEmpty then wordsRec rest []
      else String.mk cur.reverse :: wordsRec rest []
    else wordsRec rest (c :: cur)

/-- Python `s.split()`. -/
def pySplit (s : String) : List String := wordsRec s.data []

/-- `clean_value` (`search/indexers.py` lines 14-18): strip punctuation,
collapse whitespace runs to single spaces, strip the ends.  Substituting the
whitespace-run regex by a single space and then stripping is equivalent to
joining the whitespace-separated words with single spaces. -/
def clean_value (s : String) : String :=
  String.intercalate " " (pySplit (cleanSub s))

/-- `sys.maxint` on a 64-bit platform, the default `max_size` bound of
`_startswith`. -/
def SYS_MAXINT : Nat := 9223372036854775807

/-- `_startswith` (`search/indexers.py` lines 21-48): the word itself (when
within the size bounds) followed by every proper non-empty prefix whose
`fn`-image is within the bounds and not already collected. -/
def us_startswith (s : String) (min_size max_size : Nat) (fn : String → String) :
    List String :=
  let length := s.length
  let index := if min_size ≤ length ∧ length ≤ max_size then [fn s] else []
  (List.range' 1 (length - 1)).foldl
    (fun idx i =>
      let segment := fn (String.mk (s.data.take i))
      if min_size ≤ segment.length ∧ segment.length ≤ max_size ∧ segment ∉ idx
      then idx ++ [segment] else idx)
    index

/-- Modelled from the spec: the `CHARACTER_MAP` diacritic table lives in
`search/globs.py`, which is absent from the sources; spec §4.2 says
`anglicise` replaces known foreign characters "via a static lookup table"
and characters not in the table pass through unchanged.  The model keeps the
two entries witnessed by the doctests of `search/indexers.py`
(`anglicise_char`); every ASCII character passes through unchanged, which is
all the claims exercise. -/
def CHARACTER_MAP : List (Char × String) := [('ŕ', "r"), ('Æ', "Ae")]

/-- `anglicise_char` (`search/indexers.py` lines 122-131), totalised over
characters outside the table (the regex never selects those). -/
def anglicise_char (c : Char) : String :=
  (CHARACTER_MAP.lookup c).getD (String.mk [c])

/-- `anglicise` (`search/indexers.py` lines 134-137). -/
def anglicise (s : String) : String :=
  String.join (s.data.map anglicise_char)

/-- `startswith` (`search/indexers.py` lines 68-92): clean the string, then
for each not-yet-seen word append its `_startswith` segments followed by the
anglicised variant of each segment that differs from it. -/
def startswith (s : String) : List String :=
  (pySplit (clean_value s)).foldl
    (fun index word =>
      if word ∈ index then index
      else
        let segments := us_startswith word 0 SYS_MAXINT (fun x => x)
        segments.foldl
          (fun idx seg =>
            let ang := anglicise seg
            if ang ≠ seg then idx ++ [ang] else idx)
          (index ++ segments))
    []

/-! ## Text fields (`TextField`) -/

/-- `TextField.none_value()` (`search/fields.py` lines 131-132). -/
def TEXT_NONE : String := "___NONE___"

/-- Constructor state of a `TextField` (`search/fields.py` lines 127-129). -/
structure TextFieldCfg where
  base : FieldCfg
  indexer : Option (String → List String)

/-- `TextField.to_search_value` (`search/fields.py` lines 134-147): base
conversion; `None` (reachable when the configured default is `None`) maps to
the sentinel string; an `IndexedValue` is returned unchanged ("don't want to
re-index indexed values"); otherwise, with an indexer configured, the value
is replaced by the indexer's tokens joined by spaces and tagged
`IndexedValue`.  Applying the indexer to a non-string crashes in Python; the
model collapses that to the type-error tag — no claim exercises it. -/
def TextField.to_search_value (cfg : TextFieldCfg) (value : PyVal) :
    Except SearchErr PyVal :=
  match Field.to_search_value cfg.base (.vStr TEXT_NONE) value with
  | .error e => .error e
  | .ok v =>
    if v = .vNone then .ok (.vStr TEXT_NONE)
    else
      match v with
      | .vIndexed s => .ok (.vIndexed s)
      | .vStr s =>
        match cfg.indexer with
        | some ix => .ok (.vIndexed (String.intercalate " " (ix s)))
        | none => .ok (.vStr s)
      | other =>
        match cfg.indexer with
        | some _ => .error .typeError
        | none => .ok other

/-- `TextField.to_python` (`search/fields.py` lines 149-153):
`value in (None, 'None', self.none_value())` maps to `None` (an
`IndexedValue` compares equal to a plain string with the same characters);
everything else is returned as-is. -/
def TextField.to_python (value : PyVal) : PyVal :=
  if value = .vNone ∨ value = .vStr "None" ∨ value = .vStr TEXT_NONE
      ∨ value = .vIndexed "None" ∨ value = .vIndexed TEXT_NONE
  then .vNone else value

/-- A `TextField(indexer=indexers.startswith)`, as configured throughout the
repository's own documents. -/
def c1_indexed_cfg : TextFieldCfg := ⟨⟨none, true⟩, some startswith⟩

/-- Counterexample to claim C1 as stated: for the valid (non-`None`,
non-sentinel) input `"hello"` on a `TextField` configured with the
repository's `startswith` indexer, the written value reads back as the
space-joined token set `"hello h he hel hell"`, not as `"hello"` — the
round trip is not the identity. -/
theorem C1_roundtrip_counterexample :
    ((PyVal.vStr "hello") ≠ .vNone ∧ "hello" ≠ "None" ∧ "hello" ≠ TEXT_NONE) ∧
    TextField.to_search_value c1_indexed_cfg (.vStr "hello")
      = .ok (.vIndexed "hello h he hel hell") ∧
    TextField.to_python (.vIndexed "hello h he hel hell") ≠ .vStr "hello" := by
  exact ⟨by decide, rfl, by decide⟩

/-- Claim C1, amended: for every concrete field type,
`to_python(to_search_value(v))` is the identity on every valid (non-`None`,
non-sentinel) input already of the field's canonical python type — except a
`TextField` configured with an indexer, for which the round trip instead
returns the indexer's token set joined by spaces (tagged as already
indexed).  The conjuncts cover, in order: `TextField` without an indexer,
`TextField` with an arbitrary indexer, `IntegerField`, `FloatField`,
`BooleanField`, `DateTimeField` (naive, in-range, whole-second datetimes)
and `DateField`. -/
theorem C1_roundtrip_amended :
    (∀ (cfg : TextFieldCfg) (s : String), cfg.indexer = none →
      s ≠ "None" → s ≠ TEXT_NONE →
      (TextField.to_search_value cfg (.vStr s)).map TextField.to_python
        = .ok (.vStr s)) ∧
    (∀ (cfg : TextFieldCfg) (ix : String → List String) (s : String),
      cfg.indexer = some ix →
      String.intercalate " " (ix s) ≠ "None" →
      String.intercalate " " (ix s) ≠ TEXT_NONE →
      (TextField.to_search_value cfg (.vStr s)).map TextField.to_python
        = .ok (.vIndexed (String.intercalate " " (ix s)))) ∧
    (∀ (fi : IntegerFieldCfg) (n : Int), n ≠ MIN_SEARCH_API_INT →
      fi.minimum ≤ n → n ≤ fi.maximum →
      (IntegerField.to_search_value fi (.vInt n)).map IntegerField.to_python
        = .ok (.vInt n)) ∧
    (∀ (ff : FloatFieldCfg) (q : Rat), q ≠ MIN_SEARCH_API_FLOAT →
      ff.minimum ≤ q → q ≤ ff.maximum →
      (FloatField.to_search_value ff (.vFloat q)).map FloatField.to_python
        = .ok (.vFloat q)) ∧
    (∀ (cfg : FieldCfg) (b : Bool),
      (BooleanField.to_search_value cfg (.vBool b)).map BooleanField.to_python
        = .ok (.vBool b)) ∧
    (∀ (cfg : FieldCfg) (dpart : PyDate) (ts : Int),
      MIN_SEARCH_API_INT < ts → ts ≤ MAX_SEARCH_API_INT →
      dpart = timestampDate ts →
      (DateTimeField.to_search_value cfg
          (.vDateTime dpart ts false)).map DateTimeField.to_python
        = .ok (.vDateTime dpart ts false)) ∧
    (∀ (cfg : FieldCfg) (d : PyDate), d ≠ date_max →
      (DateField.to_search_value cfg (.vDate d)).map DateField.to_python
        = .ok (.vDate d)) := by
  refine ⟨?_, ?_, ?_, ?_, ?_, ?_, ?_⟩
  · intro cfg s hix h1 h2
    simp [TextField.to_search_value, Field.to_search_value, hix,
      TextField.to_python, Except.map, h1, h2]
  · intro cfg ix s hix h1 h2
    simp [TextField.to_search_value, Field.to_search_value, hix,
      TextField.to_python, Except.map, h1, h2]
  · intro fi n hs hlo hhi
    have hr : ¬ (n < fi.minimum ∨ fi.maximum < n) := by
      push_neg
      exact ⟨hlo, hhi⟩
    simp [IntegerField.to_search_value, Field.to_search_value, pyEqInt, hs,
      pyInt, hr, Except.map, IntegerField.to_python]
  · intro ff q hs hlo hhi
    have hr : ¬ (q < ff.minimum ∨ ff.maximum < q) := by
      push_neg
      exact ⟨hlo, hhi⟩
    simp [FloatField.to_search_value, Field.to_search_value, pyEqRat, hs,
      pyFloat, hr, Except.map, FloatField.to_python]
  · intro cfg b
    cases b <;>
      simp [BooleanField.to_search_value, Field.to_search_value, pyEqInt,
        BooleanField.to_python, Except.map, MIN_SEARCH_API_INT,
        MAX_SEARCH_API_INT]
  · intro cfg dpart ts hlo hhi hd
    have hs : ts ≠ MIN_SEARCH_API_INT := by omega
    simp [DateTimeField.to_search_value, Field.to_search_value, pyEqInt, hs,
      Except.map, DateTimeField.to_python, hlo, hhi, hd]
  · intro cfg d hd
    simp [DateField.to_search_value, Field.to_search_value,
      DateField.to_python, Except.map, hd]

/-- Witness for the amended C1 at concrete inputs: `"Box"` round-trips on a
plain `TextField`; `"hello"` on the indexed `TextField` reads back as its
token set; `42`, `987.0`, `True`, the datetime with timestamp `1483185600`
(2016-12-31T12:00:00, from the repository's own test) and the date
2016-12-31 all round-trip to themselves. -/
theorem C1_roundtrip_amended_witness :
    (TextField.to_search_value ⟨⟨none, true⟩, none⟩ (.vStr "Box")).map
        TextField.to_python = .ok (.vStr "Box") ∧
    (TextField.to_search_value c1_indexed_cfg (.vStr "hello")).map
        TextField.to_python = .ok (.vIndexed "hello h he hel hell") ∧
    (IntegerField.to_search_value (IntegerField.init none none ⟨none, true⟩)
        (.vInt 42)).map IntegerField.to_python = .ok (.vInt 42) ∧
    (FloatField.to_search_value (FloatField.init none none ⟨none, true⟩)
        (.vFloat 987)).map FloatField.to_python = .ok (.vFloat 987) ∧
    (BooleanField.to_search_value ⟨none, true⟩ (.vBool true)).map
        BooleanField.to_python = .ok (.vBool true) ∧
    (DateTimeField.to_search_value ⟨none, true⟩
        (.vDateTime ⟨2016, 12, 31⟩ 1483185600 false)).map
        DateTimeField.to_python
      = .ok (.vDateTime ⟨2016, 12, 31⟩ 1483185600 false) ∧
    (DateField.to_search_value ⟨none, true⟩ (.vDate ⟨2016, 12, 31⟩)).map
        DateField.to_python = .ok (.vDate ⟨2016, 12, 31⟩) := by
  have h := C1_roundtrip_amended
  refine ⟨h.1 ⟨⟨none, true⟩, none⟩ "Box" rfl (by decide) (by decide), ?_,
    h.2.2.1 (IntegerField.init none none ⟨none, true⟩) 42 (by decide)
      (by decide) (by decide),
    h.2.2.2.1 (FloatField.init none none ⟨none, true⟩) 987 (by decide)
      (by decide) (by decide),
    h.2.2.2.2.1 ⟨none, true⟩ true,
    h.2.2.2.2.2.1 ⟨none, true⟩ ⟨2016, 12, 31⟩ 1483185600 (by decide)
      (by decide) (by decide),
    h.2.2.2.2.2.2 ⟨none, true⟩ ⟨2016, 12, 31⟩ (by decide)⟩
  have h2 := h.2.1 c1_indexed_cfg startswith "hello" rfl (by decide) (by decide)
  simpa using h2

/-! ## Filter expressions (`search/ql.py`: `FilterExpr`) -/

/-- Python `str.startswith`. -/
def strHasStart : List Char → List Char → Bool
  | [], _ => true
  | _ :: _, [] => false
  | p :: ps, c :: cs => p == c && strHasStart ps cs

/-- `s.startswith(pre)`. -/
def pyStartswith (s pre : String) : Bool := strHasStart pre.data s.data

/-- The keys of `FilterExpr.OPS` (`search/ql.py` lines 24-36). -/
def FilterExpr.opsKeys : List String :=
  ["contains", "exact", "lt", "lte", "gt", "gte",
   "geo", "geo_lt", "geo_lte", "geo_gt", "geo_gte"]

/-- Split a character list at the first occurrence of the `__` separator. -/
def findSep : List Char → Option (List Char × List Char)
  | [] => none
  | '_' :: '_' :: rest => some ([], rest)
  | c :: rest =>
    match findSep rest with
    | none => none
    | some (pre, post) => some (c :: pre, post)

/-- `FilterExpr._split_filter` (`search/ql.py` lines 78-98): split the
property expression at the `__` separator; with no separator the operator
defaults to `exact`; an operator not in `OPS` silently falls back to
`exact`.  (When the remainder after the first separator contains a second
separator, Python's two-name unpacking of `split` raises; the claims'
lookup strings contain at most one, and the model's greedy-left split then
falls back to `exact` through the `OPS` membership test.) -/
def FilterExpr.split_filter (prop_expr : String) : String × String :=
  match findSep prop_expr.data with
  | none => (prop_expr, "exact")
  | some (pre, post) =>
    let op := String.mk post
    (String.mk pre, if op ∈ FilterExpr.opsKeys then op else "exact")

/-- The `OPS` templates of `search/ql.py` applied to a property name and an
already-stringified value.  The five `geo*` templates take a
`GeoQueryArguments` triple, which no claim exercises; the catch-all arm is
unreachable for the operators `split_filter` can produce on the claims'
inputs. -/
def FilterExpr.render (prop op value : String) : String :=
  if op = "contains" then prop ++ ":(" ++ value ++ ")"
  else if op = "exact" then prop ++ ":\"" ++ value ++ "\""
  else if op = "lt" then prop ++ " < " ++ value
  else if op = "lte" then prop ++ " <= " ++ value
  else if op = "gt" then prop ++ " > " ++ value
  else if op = "gte" then prop ++ " >= " ++ value
  else prop ++ ":\"" ++ value ++ "\""

/-- Zero-padded decimal rendering (`%04d` / `%02d`). -/
def padNat (w n : Nat) : String :=
  let s := toString n
  String.mk (List.replicate (w - s.length) '0') ++ s

/-- `date.isoformat()` / `strftime('%Y-%m-%d')` / `str(date)`. -/
def PyDate.isoformat (d : PyDate) : String :=
  padNat 4 d.year ++ "-" ++ padNat 2 d.month ++ "-" ++ padNat 2 d.day

/-- Python `str(value)` for the values that reach `FilterExpr.__unicode__`
in the claims (strings pass through; ints and dates render canonically).
The float and datetime arms are placeholders — Python's `repr` for them is
not modelled and no claim reaches them. -/
def pyStr : PyVal → String
  | .vStr s => s
  | .vIndexed s => s
  | .vInt n => toString n
  | .vBool b => if b then "True" else "False"
  | .vFloat q => toString q.num
  | .vDate d => d.isoformat
  | .vDateTime dpart _ _ => dpart.isoformat
  | .vNone => "None"

/-! ## Schema-side `prep_value_for_filter` -/

/-- `IntegerField.prep_value_for_filter` (`search/fields.py` lines 259-260):
`str(self.to_search_value(value))`. -/
def IntegerField.prep_value_for_filter (cfg : IntegerFieldCfg) (value : PyVal) :
    Except SearchErr PyVal :=
  match IntegerField.to_search_value cfg value with
  | .error e => .error e
  | .ok n => .ok (.vStr (toString n))

/-- `DateField.prep_value_for_filter` (`search/fields.py` lines 342-360):
`None` returns the sentinel *date object* (`date.max`); a date or datetime
is formatted `YYYY-MM-DD` (Python's `isinstance(value, date)` branch also
matches datetimes, whose `strftime('%Y-%m-%d')` formats the date part); any
other type raises `TypeError`.  When the comparison operator starts with
`"gt"`, the clause `" AND NOT <prop>:<date.max>"` is appended so unbounded
upper filters exclude no-value documents. -/
def DateField.prep_value_for_filter (value : PyVal) (prop op : String) :
    Except SearchErr PyVal :=
  if value = .vNone then .ok (.vDate date_max)
  else
    match (match value with
           | .vDate d => Except.ok (PyDate.isoformat d)
           | .vDateTime dpart _ _ => Except.ok (PyDate.isoformat dpart)
           | _ => Except.error SearchErr.typeError) with
    | .error e => .error e
    | .ok s =>
      .ok (.vStr (if pyStartswith op "gt"
        then s ++ " AND NOT " ++ prop ++ ":" ++ PyDate.isoformat date_max
        else s))

/-- A field as bound in a document schema (`document_class._meta.fields`),
restricted to the field kinds the claims filter on. -/
inductive SchemaField where
  | integerF (cfg : IntegerFieldCfg)
  | dateF

/-- Dispatch of `field.prep_value_for_filter(value, filter_expr=expr)`
(`search/ql.py` line 305): the `DateField` override reads
`filter_expr.prop_name` and `filter_expr.op`. -/
def SchemaField.prep_value_for_filter (f : SchemaField) (value : PyVal)
    (prop op : String) : Except SearchErr PyVal :=
  match f with
  | .integerF cfg => IntegerField.prep_value_for_filter cfg value
  | .dateF => DateField.prep_value_for_filter value prop op

/-- The leaf case of `Query.unparse_filter` (`search/ql.py` lines 288-316):
split the lookup, fail with `FieldLookupError` if the property is not a
schema field, convert the value with the field's `prep_value_for_filter`
(wrapping `TypeError`/`ValueError` into `BadValueError`; a `FieldError`
propagates unwrapped), then render
`FilterExpr(filter_lookup, value).get_value()`. -/
def Query.unparse_leaf (doc : List (String × SchemaField)) (k : String)
    (v : PyVal) : Except SearchErr String :=
  let pe := FilterExpr.split_filter k
  match doc.lookup pe.1 with
  | none => .error .fieldLookupError
  | some f =>
    match SchemaField.prep_value_for_filter f v pe.1 pe.2 with
    | .error .typeError => .error .badValueError
    | .error .valueError => .error .badValueError
    | .error e => .error e
    | .ok v2 => .ok (FilterExpr.render pe.1 pe.2 (pyStr v2))

/-! ## `Q` trees (`search/ql.py`: `Q`) -/

/-- A keyword-argument value in `Q(**kwargs)`: a scalar, or a non-string
iterable (modelled with its first element explicit — `__init__` reads
`v[0]`, so an empty list crashes in Python with `IndexError` and is outside
the model's domain). -/
inductive QArg where
  | scalar (v : PyVal)
  | listArg (v0 : PyVal) (rest : List PyVal)
  deriving DecidableEq, Repr

mutual
/-- A node of a `Q` tree.  A `Q` object is always a `node` carrying its
constructor `kwargs` (stored by `__init__` as `self.kwargs`), its `children`
(each a `(field_lookup, value)` tuple leaf or a nested `Q`), its connective
and its `inverted` flag. -/
inductive QItem where
  | leaf (k : String) (v : PyVal)
  | node (kwargs : List (String × QArg)) (children : QList) (conn : String)
      (inverted : Bool)

/-- The children list of a `Q` node. -/
inductive QList where
  | nil
  | cons (head : QItem) (tail : QList)
end

/-- Length of a children list. -/
def QList.length : QList → Nat
  | .nil => 0
  | .cons _ t => t.length + 1

/-- `Q._combine` (`search/ql.py` lines 173-181): a fresh `Q()` (empty
kwargs, default connective, not inverted) to which both operands are added
as children, with the connective then set. -/
def Q.combine (a b : QItem) (conn : String) : QItem :=
  .node [] (.cons a (.cons b .nil)) conn false

/-- `Q.__and__`. -/
def Q.and (a b : QItem) : QItem := Q.combine a b "AND"

/-- `Q.__or__`. -/
def Q.or (a b : QItem) : QItem := Q.combine a b "OR"

/-- The `Q` built by `Q(**{k: v})` for a scalar value: one tuple leaf. -/
def Q.leafQ (k : String) (v : PyVal) : QItem :=
  .node [(k, QArg.scalar v)] (.cons (.leaf k v) .nil) "AND" false

/-- The OR-subtree `Q.__init__` desugars a list value into
(`search/ql.py` lines 118-122): `q = Q(**{k: v[0]})` then
`q |= Q(**{k: value})` for each remaining value. -/
def Q.orChain (k : String) (v0 : PyVal) (rest : List PyVal) : QItem :=
  rest.foldl (fun q v => Q.or q (Q.leafQ k v)) (Q.leafQ k v0)

/-- One child produced by `Q.__init__` for one keyword argument. -/
def Q.childOfKwarg : String × QArg → QItem
  | (k, .scalar v) => .leaf k v
  | (k, .listArg v0 rest) => Q.orChain k v0 rest

/-- The children produced by `Q.__init__` for a kwargs list. -/
def Q.childList : List (String × QArg) → QList
  | [] => .nil
  | kv :: rest => .cons (Q.childOfKwarg kv) (Q.childList rest)

/-- `Q.__init__` (`search/ql.py` lines 107-127): store the kwargs, desugar
each list-valued kwarg into an OR-subtree, and start with the default `AND`
connective, not inverted. -/
def Q.ofKwargs (kwargs : List (String × QArg)) : QItem :=
  .node kwargs (Q.childList kwargs) "AND" false

/-- `Q.__invert__` (`search/ql.py` lines 135-138):
`obj = type(self)(**self.kwargs); obj.inverted = not self.inverted` — the
new node is REBUILT from the stored constructor kwargs (not from the current
children/connective) with the inversion flag toggled. -/
def Q.invert (q : QItem) : QItem :=
  match q with
  | .node kwargs _ _ inverted =>
    match Q.ofKwargs kwargs with
    | .node kw ch conn _ => .node kw ch conn (!inverted)
    | other => other
  | other => other

/-- `Q.__invert__` of the older top-level variant (`src/ql.py` lines
110-114): `obj = type(self)(); obj.add(self); obj.inverted = True` — wraps
the operand in a fresh node and *sets* (never toggles) the flag. -/
def Q.invert_v0 (q : QItem) : QItem :=
  .node [] (.cons q .nil) "AND" true

/-- The children of a node (`self.children`; a tuple leaf has none). -/
def QItem.childrenOf : QItem → QList
  | .leaf _ _ => .nil
  | .node _ c _ _ => c

/-- The connective of a node (`self.conn`). -/
def QItem.connOf : QItem → String
  | .leaf _ _ => ""
  | .node _ _ c _ => c

/-- The inversion flag of a node (`self.inverted`). -/
def QItem.invertedOf : QItem → Bool
  | .leaf _ _ => false
  | .node _ _ _ i => i

/-! ## Compiling `Q` trees (`Query.unparse_filter`, `search/ql.py`) -/

mutual
/-- `Query.unparse_filter` (`search/ql.py` lines 266-316): a `Q` node
renders as its children's renderings joined by the node's connective,
wrapped in parentheses (prefixed with `NOT` when inverted); a tuple leaf
renders through the schema lookup and `FilterExpr`. -/
def Query.unparse_filter (doc : List (String × SchemaField)) :
    QItem → Except SearchErr String
  | .leaf k v => Query.unparse_leaf doc k v
  | .node _ children conn inverted =>
    match Query.unparse_children doc children with
    | .error e => .error e
    | .ok parts =>
      let joined := String.intercalate (" " ++ conn ++ " ") parts
      .ok (if inverted then "NOT (" ++ joined ++ ")"
           else "(" ++ joined ++ ")")

/-- The recursion of `unparse_filter` over a children list (the list
comprehension in `search/ql.py` line 283, left to right). -/
def Query.unparse_children (doc : List (String × SchemaField)) :
    QList → Except SearchErr (List String)
  | .nil => .ok []
  | .cons c rest =>
    match Query.unparse_filter doc c with
    | .error e => .error e
    | .ok s =>
      match Query.unparse_children doc rest with
      | .error e => .error e
      | .ok ss => .ok (s :: ss)
end

/-- `String.intercalate` of a one-element list is that element. -/
theorem intercalate_one (sep s : String) : String.intercalate sep [s] = s := rfl

/-- Claim C4, counterexample to the claim as stated: for the combined node
`q = Q(x=1) | Q(y=2)` (connective `OR`, two children), `~q` is rebuilt from
`q`'s empty constructor kwargs, so it has connective `AND` and no children —
not the children and connective of `q`.  The older `src/ql.py` variant also
violates the claim: it wraps `q` in a single-child node and always sets
`inverted = True`, so a double negation is not toggled back. -/
theorem C4_invert_counterexample :
    (Q.or (Q.ofKwargs [("x", QArg.scalar (.vInt 1))])
        (Q.ofKwargs [("y", QArg.scalar (.vInt 2))])).connOf = "OR" ∧
    (Q.invert (Q.or (Q.ofKwargs [("x", QArg.scalar (.vInt 1))])
        (Q.ofKwargs [("y", QArg.scalar (.vInt 2))]))).connOf = "AND" ∧
    (Q.or (Q.ofKwargs [("x", QArg.scalar (.vInt 1))])
        (Q.ofKwargs [("y", QArg.scalar (.vInt 2))])).childrenOf.length = 2 ∧
    (Q.invert (Q.or (Q.ofKwargs [("x", QArg.scalar (.vInt 1))])
        (Q.ofKwargs [("y", QArg.scalar (.vInt 2))]))).childrenOf.length = 0 ∧
    (Q.invert_v0 (Q.or (Q.ofKwargs [("x", QArg.scalar (.vInt 1))])
        (Q.ofKwargs [("y", QArg.scalar (.vInt 2))]))).childrenOf.length = 1 ∧
    (Q.invert_v0 (Q.invert_v0 (Q.or (Q.ofKwargs [("x", QArg.scalar (.vInt 1))])
        (Q.ofKwargs [("y", QArg.scalar (.vInt 2))])))).invertedOf = true :=
  ⟨rfl, rfl, rfl, rfl, rfl, rfl⟩

/-- Claim C4, amended: `~q` returns a new node with the `inverted` flag
toggled, rebuilt from `q`'s constructor kwargs — so for a `Q` built directly
from kwargs (a leaf-level `Q`, never combined) the children and connective
are preserved exactly as the claim states and double negation is the
identity; for a combined node the children and connective are those of a
fresh empty `Q` (`AND`, no children), not the operand's.  The operand itself
is never altered (all operations return new nodes). -/
theorem C4_invert_amended :
    (∀ kwargs : List (String × QArg),
      (Q.invert (Q.ofKwargs kwargs)).childrenOf
          = (Q.ofKwargs kwargs).childrenOf ∧
      (Q.invert (Q.ofKwargs kwargs)).connOf = (Q.ofKwargs kwargs).connOf ∧
      (Q.invert (Q.ofKwargs kwargs)).invertedOf
          = !(Q.ofKwargs kwargs).invertedOf ∧
      Q.invert (Q.invert (Q.ofKwargs kwargs)) = Q.ofKwargs kwargs) ∧
    (∀ (kwargs : List (String × QArg)) (children : QList) (conn : String)
        (inv : Bool),
      (Q.invert (.node kwargs children conn inv)).invertedOf = !inv) :=
  ⟨fun _ => ⟨rfl, rfl, rfl, rfl⟩, fun _ _ _ _ => rfl⟩

/-- A default `IntegerField` bound in a schema, for the compile claims. -/
def intFieldDefault : IntegerFieldCfg := IntegerField.init none none ⟨none, true⟩

/-- The schema for claims about a filter on `field`. -/
def c5_doc : List (String × SchemaField) := [("field", .integerF intFieldDefault)]

/-- Claim C5, counterexample to the claim as stated:
`Q(field__in=[1,2,3])` compiles with one extra pair of parentheses around
the OR-chain (the desugared chain is wrapped as the single child of the
constructed `Q`), so the two query strings are not identical. -/
theorem C5_in_counterexample :
    Query.unparse_filter c5_doc
        (Q.ofKwargs [("field", QArg.listArg (.vInt 1) [.vInt 2, .vInt 3])])
      = .ok "((((field:\"1\") OR (field:\"2\")) OR (field:\"3\")))" ∧
    Query.unparse_filter c5_doc
        (Q.or (Q.or (Q.ofKwargs [("field", QArg.scalar (.vInt 1))])
            (Q.ofKwargs [("field", QArg.scalar (.vInt 2))]))
          (Q.ofKwargs [("field", QArg.scalar (.vInt 3))]))
      = .ok "(((field:\"1\") OR (field:\"2\")) OR (field:\"3\"))" ∧
    ("((((field:\"1\") OR (field:\"2\")) OR (field:\"3\")))" : String)
      ≠ "(((field:\"1\") OR (field:\"2\")) OR (field:\"3\"))" :=
  ⟨rfl, rfl, by decide⟩

/-- Claim C5, amended: over any schema, `Q(field__in=[v0, vs...])` compiles
to exactly the compilation of `Q(field=v0) | Q(field=v1) | ...` wrapped in
one additional pair of parentheses (the two differ only by that outer
wrapping; in particular they are logically the same OR of equalities). -/
theorem C5_in_amended (doc : List (String × SchemaField)) (k : String)
    (v0 : PyVal) (rest : List PyVal) :
    Query.unparse_filter doc (Q.ofKwargs [(k, QArg.listArg v0 rest)])
      = (Query.unparse_filter doc
          (rest.foldl (fun q v => Q.or q (Q.ofKwargs [(k, QArg.scalar v)]))
            (Q.ofKwargs [(k, QArg.scalar v0)]))).map
          (fun s => "(" ++ s ++ ")") := by
  have hfold : rest.foldl (fun q v => Q.or q (Q.ofKwargs [(k, QArg.scalar v)]))
      (Q.ofKwargs [(k, QArg.scalar v0)]) = Q.orChain k v0 rest := rfl
  rw [hfold]
  show Query.unparse_filter doc
      (.node [(k, QArg.listArg v0 rest)]
        (.cons (Q.orChain k v0 rest) .nil) "AND" false) = _
  cases h : Query.unparse_filter doc (Q.orChain k v0 rest) <;>
    simp [Query.unparse_filter, Query.unparse_children, h, Except.map,
      intercalate_one]

/-! ## Query building (`search/ql.py`: `Query`) -/

/-- The character class kept by `FORBIDDEN_VALUE_REGEX = ([^_.@ \w-]+)`
(`search/ql.py` line 6): underscore, dot, at-sign, space, word characters
and the hyphen; `_clean` strips everything else.  `\w` is modelled for
alphanumerics (the claims only exercise ASCII keywords). -/
def allowedKeywordChar (c : Char) : Bool :=
  c = '_' || c = '.' || c = '@' || c = ' ' || c = '-' || c.isAlphanum

/-- `Query._clean` (`search/ql.py` lines 221-225). -/
def Query.clean (s : String) : String :=
  String.mk (s.data.filter allowedKeywordChar)

/-- Python truthiness of an optional string (`None` and the empty string are
falsy), as tested by `build_query`. -/
def truthyStr : Option String → Bool
  | none => false
  | some s => !s.isEmpty

/-- `Query.build_keywords` (`search/ql.py` lines 324-329): `None` when no
keywords were added, else the keywords joined by single spaces and
cleaned. -/
def Query.build_keywords (kws : List String) : Option String :=
  match kws with
  | [] => none
  | _ => some (Query.clean (String.intercalate " " kws))

/-- `Query.build_filters` (`search/ql.py` lines 318-322): `None` when no
`Q` has been gathered, else the unparse of the gathered tree. -/
def Query.build_filters (doc : List (String × SchemaField))
    (gq : Option QItem) : Except SearchErr (Option String) :=
  match gq with
  | none => .ok none
  | some q =>
    match Query.unparse_filter doc q with
    | .error e => .error e
    | .ok s => .ok (some s)

/-- The combination step of `Query.build_query` (`search/ql.py` lines
331-342), over the built filter and keyword strings with Python
truthiness. -/
def Query.build_query_str (filters keywords : Option String) : String :=
  if truthyStr filters && truthyStr keywords then
    keywords.getD "" ++ " AND " ++ filters.getD ""
  else if truthyStr filters then filters.getD ""
  else if truthyStr keywords then keywords.getD ""
  else ""

/-- `Query.build_query` (`search/ql.py` lines 331-342). -/
def Query.build_query (doc : List (String × SchemaField)) (gq : Option QItem)
    (kws : List String) : Except SearchErr String :=
  match Query.build_filters doc gq with
  | .error e => .error e
  | .ok f => .ok (Query.build_query_str f (Query.build_keywords kws))

/-- The schema for the C6 example filter `Q(x=1)`. -/
def c6_doc : List (String × SchemaField) := [("x", .integerF intFieldDefault)]

/-- Claim C6: `Query.build_query` returns `keywords AND filters` when both
are present (truthy), just the present one when only one is, and the empty
string when neither is; and concretely, a `Query` with keywords `"hello"`
and filter `Q(x=1)` builds `hello AND (x:"1")`. -/
theorem C6_build_query_shape :
    (∀ f k : Option String, truthyStr f = true → truthyStr k = true →
      Query.build_query_str f k = k.getD "" ++ " AND " ++ f.getD "") ∧
    (∀ f k : Option String, truthyStr f = true → truthyStr k = false →
      Query.build_query_str f k = f.getD "") ∧
    (∀ f k : Option String, truthyStr f = false → truthyStr k = true →
      Query.build_query_str f k = k.getD "") ∧
    (∀ f k : Option String, truthyStr f = false → truthyStr k = false →
      Query.build_query_str f k = "") ∧
    Query.build_query c6_doc (some (Q.ofKwargs [("x", QArg.scalar (.vInt 1))]))
        ["hello"]
      = .ok "hello AND (x:\"1\")" := by
  refine ⟨?_, ?_, ?_, ?_, rfl⟩
  · intro f k hf hk
    simp [Query.build_query_str, hf, hk]
  · intro f k hf hk
    simp [Query.build_query_str, hf, hk]
  · intro f k hf hk
    simp [Query.build_query_str, hf, hk]
  · intro f k hf hk
    simp [Query.build_query_str, hf, hk]

/-- Witness for C6 at concrete filter/keyword strings. -/
theorem C6_build_query_shape_witness :
    Query.build_query_str (some "(x:\"1\")") (some "hello")
      = "hello AND (x:\"1\")" ∧
    Query.build_query_str (some "(x:\"1\")") none = "(x:\"1\")" ∧
    Query.build_query_str none (some "hello") = "hello" ∧
    Query.build_query_str none none = "" := by
  have h := C6_build_query_shape
  exact ⟨h.1 (some "(x:\"1\")") (some "hello") (by decide) (by decide),
    h.2.1 (some "(x:\"1\")") none (by decide) rfl,
    h.2.2.1 none (some "hello") rfl (by decide),
    h.2.2.2.1 none none rfl rfl⟩

/-- The schema for the C7 date filter claims. -/
def c7_doc : List (String × SchemaField) := [("bar", .dateF)]

/-- Claim C7: for a `DateField` filtered with a greater-than comparison
(`gt` or `gte`), `prep_value_for_filter` appends the clause excluding the
sentinel "no value" date, so the compiled filter string is the plain
comparison followed by `AND NOT bar:9999-12-31`; for `lt`, `lte` and
`exact` no such clause is appended (the compiled string is exactly the
plain comparison). -/
theorem C7_date_gt_excludes_sentinel (d : PyDate) :
    Query.unparse_leaf c7_doc "bar__gt" (.vDate d)
      = .ok ("bar" ++ " > " ++
          (d.isoformat ++ " AND NOT " ++ "bar" ++ ":" ++ "9999-12-31")) ∧
    Query.unparse_leaf c7_doc "bar__gte" (.vDate d)
      = .ok ("bar" ++ " >= " ++
          (d.isoformat ++ " AND NOT " ++ "bar" ++ ":" ++ "9999-12-31")) ∧
    Query.unparse_leaf c7_doc "bar__lt" (.vDate d)
      = .ok ("bar" ++ " < " ++ d.isoformat) ∧
    Query.unparse_leaf c7_doc "bar__lte" (.vDate d)
      = .ok ("bar" ++ " <= " ++ d.isoformat) ∧
    Query.unparse_leaf c7_doc "bar" (.vDate d)
      = .ok ("bar" ++ ":\"" ++ d.isoformat ++ "\"") ∧
    Query.unparse_leaf c7_doc "bar__gt" (.vDate ⟨2001, 1, 2⟩)
      = .ok "bar > 2001-01-02 AND NOT bar:9999-12-31" ∧
    Query.unparse_leaf c7_doc "bar__lt" (.vDate ⟨2001, 1, 2⟩)
      = .ok "bar < 2001-01-02" :=
  ⟨rfl, rfl, rfl, rfl, rfl, rfl, rfl⟩

/-! ## `SearchQuery` (`query.py`)

`SearchQuery` holds a reference to a mutable `ql.Query` object; `_clone`
copies that reference (`new_query.query = self.query`), so the model keeps
the `Query` objects in an explicit heap addressed by `Nat` references, while
the per-instance window attributes live in the `SearchQuery` record itself
(Python mutates them only through `_set_limits`/`_reset_limits` on the
instance at hand, which the model renders as record updates). -/

/-- The mutable state of a `ql.Query` ( `_gathered_q` and `_keywords`;
`search/ql.py` lines 209-212). -/
structure QueryState where
  gathered_q : Option QItem
  keywords : List String

/-- A heap of `ql.Query` objects. -/
structure Heap where
  next : Nat
  store : Nat → QueryState

/-- Allocate a fresh, empty `ql.Query` (the `self.query = ql.Query(...)` of
`SearchQuery.__init__`). -/
def Heap.alloc (h : Heap) : Nat × Heap :=
  (h.next, ⟨h.next + 1, fun r => if r = h.next then ⟨none, []⟩ else h.store r⟩)

/-- Overwrite one heap cell (a mutation of the referenced `Query`). -/
def Heap.update (h : Heap) (r : Nat) (qs : QueryState) : Heap :=
  ⟨h.next, fun x => if x = r then qs else h.store x⟩

/-- Python `str.lower()` (ASCII). -/
def pyLower (s : String) : String := String.mk (s.data.map Char.toLower)

/-- `Query.add_q` (`search/ql.py` lines 237-251): the first `Q` becomes the
gathered tree; later ones are combined with it through `__and__`/`__or__`,
using the tree's default connective (`AND`) when none is supplied.  (The
older `src/ql.py` `add_q` takes no connective argument and always uses the
default, i.e. it coincides with this model at `conn = none`, which is how
`SearchQuery.filter` calls it.)  A connective other than AND/OR crashes in
Python (`getattr` lookup fails) and is outside the modelled domain. -/
def Query.add_q_state (qs : QueryState) (q : QItem) (conn : Option String) :
    QueryState :=
  match qs.gathered_q with
  | none => { qs with gathered_q := some q }
  | some g =>
    let c := pyLower (conn.getD "AND")
    { qs with gathered_q := some (if c = "or" then Q.or g q else Q.and g q) }

/-- `MAX_LIMIT` (`query.py` line 88). -/
def SearchQuery.MAX_LIMIT : Int := 1000

/-- `MAX_OFFSET` (`query.py` line 89). -/
def SearchQuery.MAX_OFFSET : Int := 1000

/-- The `SearchQuery` attributes the claims observe.  The sort, snippet,
expression, scorer, raw-query and result-cache attributes are omitted: they
never affect the window or the shared `Query` reference.  (`_clone` copies
the omitted list attributes by reference as well.) -/
structure SearchQuery where
  ids_only : Bool
  queryRef : Nat
  cursor : Option String
  next_cursor : Option String
  offset : Int
  limit : Int
  has_set_limits : Bool

/-- `SearchQuery.__init__` (`query.py` lines 94-131): allocates a fresh
`ql.Query` and starts with the default window `offset = 0`,
`limit = MAX_LIMIT`. -/
def SearchQuery.init (h : Heap) (ids_only : Bool) : SearchQuery × Heap :=
  let a := Heap.alloc h
  ({ ids_only := ids_only
     queryRef := a.1
     cursor := none
     next_cursor := none
     offset := 0
     limit := SearchQuery.MAX_LIMIT
     has_set_limits := false }, a.2)

/-- `SearchQuery._set_limits` (`query.py` lines 216-222): `low = low or 0`
and `high = high or MAX_LIMIT + low` under Python truthiness (`None` and `0`
are falsy), then `offset = low`, `limit = high - low`. -/
def SearchQuery.set_limits (sq : SearchQuery) (low high : Option Int) :
    SearchQuery :=
  let l : Int := match low with
    | none => 0
    | some x => if x = 0 then 0 else x
  let hi : Int := match high with
    | none => SearchQuery.MAX_LIMIT + l
    | some x => if x = 0 then SearchQuery.MAX_LIMIT + l else x
  { sq with offset := l, limit := hi - l, has_set_limits := true }

/-- `SearchQuery._clone` (`query.py` lines 176-193): construct a fresh
`SearchQuery` (allocating a fresh `Query` the clone immediately abandons),
window it with `_set_limits(self._offset, self._limit - self._offset)`, copy
the cursors, and OVERWRITE the fresh query reference with the original's
(`new_query.query = self.query`) — the clone and the original share one
`ql.Query` object. -/
def SearchQuery.clone (h : Heap) (sq : SearchQuery) : SearchQuery × Heap :=
  let p := SearchQuery.init h sq.ids_only
  ({ p.1.set_limits (some sq.offset) (some (sq.limit - sq.offset)) with
      queryRef := sq.queryRef
      cursor := sq.cursor
      next_cursor := sq.next_cursor }, p.2)

/-- `SearchQuery.__getitem__` on a slice without a step (`query.py` lines
150-174): validate the bounds (each failure a distinct `IndexError`), then
clone and window the clone with the slice bounds, returning the clone.
(A stepped slice materialises the results client-side — execution against
the platform, outside this model.) -/
def SearchQuery.getitem_slice (h : Heap) (sq : SearchQuery)
    (start stop : Option Int) : Except SearchErr (SearchQuery × Heap) :=
  if (match start with | some st => decide (st < 0) | none => false) = true then
    .error .indexError
  else if (match start with
      | some st => decide (st > SearchQuery.MAX_OFFSET)
      | none => false) = true then
    .error .indexError
  else if (match stop with
      | some sp => decide (sp < start.getD 0)
      | none => false) = true then
    .error .indexError
  else if (match stop with
      | some sp => decide (sp - start.getD 0 > SearchQuery.MAX_LIMIT)
      | none => false) = true then
    .error .indexError
  else
    let p := SearchQuery.clone h sq
    .ok (p.1.set_limits start stop, p.2)

/-- `quote_if_special_characters` (`query.py` lines 10-13):
`PUNCTUATION_REGEX.match` tests the first character. -/
def quote_if_special_characters (value : String) : String :=
  match value.data with
  | [] => value
  | c :: _ => if keepChar c then value else "\"" ++ value ++ "\""

/-- `SearchQuery.filter(**kwargs)` (`query.py` lines 232-241): mutates
`self.query` in place via `add_q` and returns `self` — no clone is taken. -/
def SearchQuery.filter_kwargs (h : Heap) (sq : SearchQuery)
    (kwargs : List (String × QArg)) : SearchQuery × Heap :=
  (sq, h.update sq.queryRef
    (Query.add_q_state (h.store sq.queryRef) (Q.ofKwargs kwargs) none))

/-- `SearchQuery.keywords` (`query.py` lines 269-271): appends to the shared
`Query`'s keyword list in place and returns `self`. -/
def SearchQuery.keywords_op (h : Heap) (sq : SearchQuery) (kw : String) :
    SearchQuery × Heap :=
  let qs := h.store sq.queryRef
  (sq, h.update sq.queryRef
    { qs with keywords := qs.keywords ++ [quote_if_special_characters kw] })

/-- Claim C8: slicing a default-window `SearchQuery` at `[10:20]` returns
the windowed clone (offset 10, limit 10), a record distinct from the
original, and the original's window attributes still carry the default
values — `__getitem__` only ever mutates the clone (`new_query`), never
`self`. -/
theorem C8_slice_sets_window (h : Heap) (sq : SearchQuery)
    (h0 : sq.offset = 0) (h1 : sq.limit = SearchQuery.MAX_LIMIT) :
    SearchQuery.getitem_slice h sq (some 10) (some 20)
      = .ok ((SearchQuery.clone h sq).1.set_limits (some 10) (some 20),
             (SearchQuery.clone h sq).2) ∧
    ((SearchQuery.clone h sq).1.set_limits (some 10) (some 20)).offset = 10 ∧
    ((SearchQuery.clone h sq).1.set_limits (some 10) (some 20)).limit = 10 ∧
    (SearchQuery.clone h sq).1.set_limits (some 10) (some 20) ≠ sq ∧
    sq.offset = 0 ∧ sq.limit = SearchQuery.MAX_LIMIT := by
  refine ⟨rfl, rfl, rfl, ?_, h0, h1⟩
  intro he
  have hoff : ((SearchQuery.clone h sq).1.set_limits
      (some 10) (some 20)).offset = 10 := rfl
  rw [he, h0] at hoff
  exact absurd hoff (by decide)

/-- An empty heap for the concrete `SearchQuery` scenarios. -/
def emptyHeap : Heap := ⟨0, fun _ => ⟨none, []⟩⟩

/-- A freshly constructed `SearchQuery` over the empty heap. -/
def c8_sq : SearchQuery := (SearchQuery.init emptyHeap false).1

/-- The heap after constructing `c8_sq`. -/
def c8_h1 : Heap := (SearchQuery.init emptyHeap false).2

/-- Witness for C8: the concrete fresh query sliced at `[10:20]`. -/
theorem C8_slice_sets_window_witness :
    SearchQuery.getitem_slice c8_h1 c8_sq (some 10) (some 20)
      = .ok ((SearchQuery.clone c8_h1 c8_sq).1.set_limits (some 10) (some 20),
             (SearchQuery.clone c8_h1 c8_sq).2) ∧
    ((SearchQuery.clone c8_h1 c8_sq).1.set_limits
        (some 10) (some 20)).offset = 10 ∧
    ((SearchQuery.clone c8_h1 c8_sq).1.set_limits
        (some 10) (some 20)).limit = 10 ∧
    (SearchQuery.clone c8_h1 c8_sq).1.set_limits (some 10) (some 20) ≠ c8_sq ∧
    c8_sq.offset = 0 ∧ c8_sq.limit = SearchQuery.MAX_LIMIT :=
  C8_slice_sets_window c8_h1 c8_sq rfl rfl

/-- The slice `c8_sq[10:20]` (the clone sharing the original's `Query`). -/
def c9_sl : SearchQuery :=
  (SearchQuery.clone c8_h1 c8_sq).1.set_limits (some 10) (some 20)

/-- The heap after the slice (one abandoned fresh `Query` allocated). -/
def c9_h2 : Heap := (SearchQuery.clone c8_h1 c8_sq).2

/-- The state after calling `.filter(x=1)` on the slice. -/
def c9_final : SearchQuery × Heap :=
  SearchQuery.filter_kwargs c9_h2 c9_sl [("x", QArg.scalar (.vInt 1))]

/-- Claim C9, counterexample to the claim as stated: slicing does return a
new `SearchQuery`, but the slice's `queryRef` is the original's — and after
`.filter(x=1)` on the SLICE, the original's `ql.Query` cell (which held no
filters before) now holds the filter tree: the original `SearchQuery`'s
query state was mutated by refining the slice. -/
theorem C9_refine_mutates_counterexample :
    (c8_h1.store c8_sq.queryRef).gathered_q.isNone = true ∧
    c9_sl.queryRef = c8_sq.queryRef ∧
    c9_sl.offset = 10 ∧
    (c9_final.2.store c8_sq.queryRef).gathered_q.isSome = true ∧
    (c9_final.2.store c8_sq.queryRef).gathered_q
      = some (Q.ofKwargs [("x", QArg.scalar (.vInt 1))]) :=
  ⟨rfl, rfl, rfl, rfl, rfl⟩

/-- Claim C9, amended: slicing always returns a new `SearchQuery` record,
but the clone shares the original's `ql.Query` object by reference
(`_clone` assigns `new_query.query = self.query`), so adding a filter or
keywords to the slice updates the original's query state too — only the
window attributes are independent. -/
theorem C9_shared_query_amended (h h2 : Heap) (sq r : SearchQuery)
    (start stop : Option Int) (kwargs : List (String × QArg)) (kw : String)
    (hs : SearchQuery.getitem_slice h sq start stop = .ok (r, h2)) :
    r.queryRef = sq.queryRef ∧
    (SearchQuery.filter_kwargs h2 r kwargs).2.store sq.queryRef
      = Query.add_q_state (h2.store sq.queryRef) (Q.ofKwargs kwargs) none ∧
    ((SearchQuery.keywords_op h2 r kw).2.store sq.queryRef).keywords
      = (h2.store sq.queryRef).keywords
          ++ [quote_if_special_characters kw] := by
  unfold SearchQuery.getitem_slice at hs
  split_ifs at hs
  simp only [Except.ok.injEq, Prod.mk.injEq] at hs
  obtain ⟨hr, hh⟩ := hs
  subst hr
  subst hh
  have hq : ((SearchQuery.clone h sq).1.set_limits start stop).queryRef
      = sq.queryRef := rfl
  refine ⟨rfl, ?_, ?_⟩
  · simp [SearchQuery.filter_kwargs, Heap.update, hq]
  · simp [SearchQuery.keywords_op, Heap.update, hq]

/-- Witness for the amended C9 at the concrete slice-then-filter
scenario. -/
theorem C9_shared_query_amended_witness :
    c9_sl.queryRef = c8_sq.queryRef ∧
    (SearchQuery.filter_kwargs c9_h2 c9_sl
        [("x", QArg.scalar (.vInt 1))]).2.store c8_sq.queryRef
      = Query.add_q_state (c9_h2.store c8_sq.queryRef)
          (Q.ofKwargs [("x", QArg.scalar (.vInt 1))]) none ∧
    ((SearchQuery.keywords_op c9_h2 c9_sl "extra").2.store
        c8_sq.queryRef).keywords
      = (c9_h2.store c8_sq.queryRef).keywords
          ++ [quote_if_special_characters "extra"] :=
  C9_shared_query_amended c8_h1 c9_h2 c8_sq c9_sl (some 10) (some 20)
    [("x", QArg.scalar (.vInt 1))] "extra" rfl

end GSearch
